import Mathlib

/-!
Verification of the decision-dashboard step wizard and its heuristic
analysis generator, shallowly embedded from
`src/components/DecisionDashboard/DecisionDashboard.tsx`.

Numbers from the slider widgets (`balanceScore`, `timeHorizon`,
`confidenceScore`) are embedded as `Nat`; the values produced by
`Math.random()` are embedded as an injected stream `r : Nat -> Rat` of
draws in `[0, 1)`, consumed left to right in exactly the order the source
calls `Math.random()`.  JavaScript truthiness on strings is the test
`s = ""` and on the numeric fields the `|| 50` defaulting is the test
`n = 0`.
-/

namespace AnchorDecisions

/-- Wizard step identifiers, from the `currentStep` union type
(`'question' | 'intuition' | 'context' | 'analysis' | 'confidence'`). -/
inductive Step where
  | question
  | intuition
  | context
  | analysis
  | confidence
deriving DecidableEq, Repr

/-- A scored factor, from the `Factor` interface. -/
structure Factor where
  name : String
  score : Nat
  valueAlignment : Option String
deriving DecidableEq, Repr

/-- Sentiment magnitudes and tone, from the `Sentiment` interface. -/
structure Sentiment where
  positive : Rat
  negative : Rat
  neutral : Rat
  tone : Option String
deriving DecidableEq, Repr

/-- One catalog entry of a cognitive bias, from the `BiasDetection`
interface. -/
structure BiasDetection where
  biasType : String
  description : String
  suggestion : String
deriving DecidableEq, Repr

/-- A point on the decision compass, from the `OptionPosition` interface. -/
structure OptionPosition where
  x : Rat
  y : Rat
deriving DecidableEq, Repr

/-- The generated analysis bundle, from the `Analysis` interface.  The
JavaScript record `optionPositions` is embedded as an association list in
insertion order. -/
structure Analysis where
  recommendation : String
  factors : List Factor
  sentiment : Sentiment
  detectedBiases : List BiasDetection
  valueConflicts : List String
  optionPositions : List (String × OptionPosition)
  thirdOption : Option String
deriving DecidableEq, Repr

/-- The `HARMFUL_KEYWORDS` constant. -/
def HARMFUL_KEYWORDS : List String :=
  ["kill", "suicide", "murder", "hurt", "harm", "die", "death", "violent", "weapon",
   "gun", "bomb", "attack", "destroy", "revenge", "illegal", "crime"]

/-- The `COMMON_VALUES` constant. -/
def COMMON_VALUES : List String :=
  ["Family", "Health", "Financial Security", "Career Growth", "Happiness",
   "Freedom", "Stability", "Adventure", "Learning", "Relationships", "Community",
   "Spirituality", "Creativity", "Achievement", "Balance"]

/-- The `COGNITIVE_BIASES` constant: the fixed five-entry catalog. -/
def COGNITIVE_BIASES : List BiasDetection :=
  [{ biasType := "Loss Aversion",
     description := "The tendency to prefer avoiding losses over acquiring equivalent gains.",
     suggestion := "Try to evaluate potential gains with the same weight as potential losses." },
   { biasType := "Confirmation Bias",
     description := "The tendency to search for or interpret information in a way that confirms one\x27s preconceptions.",
     suggestion := "Actively seek out information that challenges your initial assumptions." },
   { biasType := "Recency Bias",
     description := "The tendency to weigh recent events more heavily than earlier events.",
     suggestion := "Consider the full history and pattern of outcomes, not just recent experiences." },
   { biasType := "Status Quo Bias",
     description := "The preference for the current state of affairs, leading to resistance to change.",
     suggestion := "Evaluate the status quo option as critically as you would any new option." },
   { biasType := "Emotional Reasoning",
     description := "Making decisions based on how you feel rather than objective evidence.",
     suggestion := "Acknowledge your emotions, but also look for concrete facts to support your decision." }]

/-- The safety dialog message assembled in `handleQuestionChange`. -/
def SAFETY_MESSAGE : String :=
  "It seems like your question might be about a concerning topic. " ++
  "If you\x27re feeling overwhelmed or having harmful thoughts, " ++
  "please consider reaching out to a mental health professional or a trusted person in your life. " ++
  "You can also call or text a crisis helpline for immediate support."

/-- Character-list version of JavaScript `String.prototype.startsWith`. -/
def strStartsWith : List Char → List Char → Bool
  | _, [] => true
  | [], _ :: _ => false
  | a :: as, b :: bs => a == b && strStartsWith as bs

/-- Auxiliary scan for `strIncludes`. -/
def strIncludesAux (pat : List Char) : List Char → Bool
  | [] => strStartsWith [] pat
  | c :: cs => strStartsWith (c :: cs) pat || strIncludesAux pat cs

/-- JavaScript `String.prototype.includes`: `strIncludes s pat` is true
iff `pat` occurs as a contiguous substring of `s`. -/
def strIncludes (s pat : String) : Bool :=
  strIncludesAux pat.data s.data

/-- The `decision.balanceScore || 50` (resp. `timeHorizon || 50`)
defaulting at the top of `handleSubmit`: a numeric field is falsy exactly
when it is `0`. -/
def effScore (n : Nat) : Nat :=
  if n = 0 then 50 else n

/-- The opening sentence of the logical recommendation branch
(`Your approach to "..." is primarily logical (..% logical). `). -/
def logicalOpening (question : String) (balanceScore : Nat) : String :=
  "Your approach to \"" ++ question ++ "\" is primarily logical (" ++
    toString balanceScore ++ "% logical). "

/-- The opening sentence of the emotional recommendation branch
(`Your approach to "..." is primarily emotional (..% emotional). `);
as in the source, the printed percentage is `100 - balanceScore`. -/
def emotionalOpening (question : String) (balanceScore : Nat) : String :=
  "Your approach to \"" ++ question ++ "\" is primarily emotional (" ++
    toString (100 - balanceScore) ++ "% emotional). "

/-- The branch-dependent opening of the recommendation narrative
(source lines 270-295), given the already-defaulted `balanceScore`.
Returns the text together with the number of random draws consumed (one
draw is used only in the logical branch to pick a value). -/
def recommendationOpening (question : String) (balanceScore : Nat)
    (o0 o1 stakes : String) (selectedValues : List String) (r : Nat → Rat) :
    String × Nat :=
  if 50 < balanceScore then
    let withValue :=
      if 0 < selectedValues.length then
        let emotionalValue :=
          selectedValues.getD (Int.toNat ⌊r 0 * (selectedValues.length : Rat)⌋) ""
        (logicalOpening question balanceScore ++
          ("While your logical analysis is sound, consider how this decision aligns with your value of " ++
            emotionalValue.toLower ++ ". "), 1)
      else (logicalOpening question balanceScore, 0)
    if o0 ≠ "" ∧ o1 ≠ "" then
      (withValue.1 ++ ("Between " ++ o0 ++ " and " ++ o1 ++
        ", which option better serves your emotional well-being in the long run?"), withValue.2)
    else
      (withValue.1 ++ "Remember that even the most logical decisions should account for emotional impact.",
        withValue.2)
  else
    let withStakes :=
      if stakes ≠ "" then
        emotionalOpening question balanceScore ++
          ("Given what\x27s at stake (" ++ stakes ++
            "), it may be helpful to balance your emotional intuition with some logical analysis. ")
      else emotionalOpening question balanceScore
    if o0 ≠ "" ∧ o1 ≠ "" then
      (withStakes ++ ("Try creating a pros and cons list for " ++ o0 ++ " vs " ++ o1 ++
        " to ensure you\x27re not overlooking important practical factors."), 0)
    else
      (withStakes ++ "Consider writing down the practical pros and cons to complement your emotional intuition.", 0)

/-- The recommendation narrative of `handleSubmit` (source lines 268-304),
continued: intuition quotation and time-horizon remark appended to the
branch opening. -/
def mkRecommendation (question : String) (balanceScore timeHorizon : Nat)
    (o0 o1 stakes initialIntuition : String) (selectedValues : List String)
    (r : Nat → Rat) : String × Nat :=
  let opening := recommendationOpening question balanceScore o0 o1 stakes selectedValues r
  let rec2 := opening.1 ++ ("\n\nYour initial intuition was: \"" ++ initialIntuition ++ "\". ")
  let rec3 :=
    if 50 < timeHorizon then
      rec2 ++ "You\x27re focusing on long-term outcomes, which is often beneficial for major life decisions."
    else
      rec2 ++ "You\x27re focusing more on short-term outcomes. Consider if this aligns with the importance of this decision."
  (rec3, opening.2)

/-- The bias-detection block of `handleSubmit` (source lines 334-350),
abstracted over the already-drawn `financialImpact` and
`emotionalWellbeing` scores and the already-defaulted `balanceScore`. -/
def mkBiases (financialImpact emotionalWellbeing balanceScore : Nat) (o0 : String) :
    List BiasDetection :=
  (if 70 < financialImpact ∧ balanceScore < 40 then [COGNITIVE_BIASES.getD 0 ⟨"", "", ""⟩] else [])
  ++ (if balanceScore < 30 ∧ 80 < emotionalWellbeing then [COGNITIVE_BIASES.getD 4 ⟨"", "", ""⟩] else [])
  ++ (if strIncludes o0.toLower "stay" || strIncludes o0.toLower "current" then
        [COGNITIVE_BIASES.getD 3 ⟨"", "", ""⟩] else [])

/-- The `generatePosition` helper of `handleSubmit` (source lines
370-398), with the two `Math.random()` calls lifted into the arguments
`rx` and `ry` (x drawn first). -/
def generatePosition (baseX baseY : Rat) (isSecondOption : Bool) (rx ry : Rat) :
    OptionPosition :=
  let xVariance : Rat := if isSecondOption then 40 else 20
  let yVariance : Rat := if isSecondOption then 40 else 20
  if isSecondOption then
    let firstQuadrantX := 50 < baseX
    let firstQuadrantY := 50 < baseY
    let x := if firstQuadrantX then max 10 (min 45 (30 + rx * 15)) else max 55 (min 90 (70 + rx * 15))
    let y := if firstQuadrantY then max 10 (min 45 (30 + ry * 15)) else max 55 (min 90 (70 + ry * 15))
    { x := x, y := y }
  else
    { x := max 15 (min 85 (baseX + (rx * xVariance - xVariance / 2))),
      y := max 15 (min 85 (baseY + (ry * yVariance - yVariance / 2))) }

/-- Insertion into the `optionPositions` JavaScript record: assignment to
an existing key overwrites in place, a fresh key is appended. -/
def recordInsert (m : List (String × OptionPosition)) (key : String)
    (v : OptionPosition) : List (String × OptionPosition) :=
  if m.any (fun p => p.1 == key) then
    m.map (fun p => if p.1 == key then (key, v) else p)
  else m ++ [(key, v)]

/-- Total lookup in the `optionPositions` record (the source only reads
keys it has just written, so the default is never reached). -/
def recordGet (m : List (String × OptionPosition)) (key : String) : OptionPosition :=
  match m.find? (fun p => p.1 == key) with
  | some p => p.2
  | none => ⟨0, 0⟩

/-- The option-position block of `handleSubmit` (source lines 400-409),
given the already-defaulted scores and the next free draw index `kP`;
returns the record together with the next free index. -/
def mkPositions (balanceScore timeHorizon : Nat) (o0 o1 : String) (r : Nat → Rat)
    (kP : Nat) : List (String × OptionPosition) × Nat :=
  let positions1 :=
    if o0 ≠ "" then
      ([(o0, generatePosition (balanceScore : Rat) (timeHorizon : Rat) false (r kP) (r (kP + 1)))],
        kP + 2)
    else ([], kP)
  if o1 ≠ "" then
    let firstX := if o0 ≠ "" then (recordGet positions1.1 o0).x else 50
    let firstY := if o0 ≠ "" then (recordGet positions1.1 o0).y else 50
    (recordInsert positions1.1 o1
      (generatePosition firstX firstY true (r positions1.2) (r (positions1.2 + 1))),
      positions1.2 + 2)
  else positions1

/-- The controller state of `DecisionDashboard`: every `useState` hook
that the logic reads or writes. -/
structure DashState where
  question : String
  balanceScore : Nat
  timeHorizon : Nat
  options : List String
  stakes : String
  selectedValues : List String
  initialIntuition : String
  confidenceScore : Nat
  loading : Bool
  submitted : Bool
  analysis : Option Analysis
  error : Option String
  currentStep : Step
  showSafetyDialog : Bool
  safetyMessage : String
  showBiasInfo : Option String
  showThirdOption : Bool
  showTimeCapsule : Bool
  timeCapsuleScheduled : Bool
  journalSaved : Bool
  showJournalDialog : Bool
deriving Repr

/-- The initial hook values at mount. -/
def initState : DashState where
  question := ""
  balanceScore := 50
  timeHorizon := 50
  options := ["", ""]
  stakes := ""
  selectedValues := []
  initialIntuition := ""
  confidenceScore := 70
  loading := false
  submitted := false
  analysis := none
  error := none
  currentStep := .question
  showSafetyDialog := false
  safetyMessage := ""
  showBiasInfo := none
  showThirdOption := false
  showTimeCapsule := false
  timeCapsuleScheduled := false
  journalSaved := false
  showJournalDialog := false

/-- The mock-analysis body of `handleSubmit` (source lines 262-442): a
pure function of the form state and the stream of random draws. -/
def generateAnalysis (s : DashState) (r : Nat → Rat) : Analysis :=
  let balanceScore := effScore s.balanceScore
  let timeHorizon := effScore s.timeHorizon
  let o0 := s.options.getD 0 ""
  let o1 := s.options.getD 1 ""
  let recPair :=
    mkRecommendation s.question balanceScore timeHorizon o0 o1 s.stakes
      s.initialIntuition s.selectedValues r
  let recommendation := recPair.1
  let kRec := recPair.2
  let valueFactors :=
    s.selectedValues.enum.map fun p =>
      { name := p.2 ++ " alignment",
        score := Int.toNat ⌊r (kRec + p.1) * 40⌋ + 60,
        valueAlignment := some p.2 : Factor }
  let kF := kRec + s.selectedValues.length
  let financialImpact := Int.toNat ⌊r kF * 100⌋
  let emotionalWellbeing := Int.toNat ⌊r (kF + 1) * 100⌋
  let longTermConsequences := Int.toNat ⌊r (kF + 2) * 100⌋
  let baseFactors := valueFactors ++
    [{ name := "Financial impact", score := financialImpact, valueAlignment := none },
     { name := "Emotional well-being", score := emotionalWellbeing, valueAlignment := none },
     { name := "Long-term consequences", score := longTermConsequences, valueAlignment := none }]
  let stakesFactors :=
    if s.stakes ≠ "" then
      [{ name := "Impact on " ++ s.stakes, score := Int.toNat ⌊r (kF + 3) * 100⌋,
         valueAlignment := none : Factor }]
    else []
  let factors := baseFactors ++ stakesFactors
  let kS := if s.stakes ≠ "" then kF + 4 else kF + 3
  let detectedBiases := mkBiases financialImpact emotionalWellbeing balanceScore o0
  let positive := r kS * (7 / 10) + 3 / 10
  let negative := r (kS + 1) * (3 / 10)
  let neutral := r (kS + 2) * (2 / 10)
  let sentimentTone :=
    if 6 / 10 < positive then "🌱 Growth-Oriented Language"
    else if 2 / 10 < negative then "🔥 High Tension Detected"
    else "🌤️ Mostly Neutral with Slight Positivity"
  let kP := kS + 3
  let posPair := mkPositions balanceScore timeHorizon o0 o1 r kP
  let optionPositions := posPair.1
  let k2 := posPair.2
  let conflictsPair :=
    if 2 ≤ s.selectedValues.length then
      (if 1 / 2 < r k2 then
        ["Your values of " ++ s.selectedValues.getD 0 "" ++ " and " ++
          s.selectedValues.getD 1 "" ++ " may be in tension for this decision."]
       else [], k2 + 1)
    else ([], k2)
  let valueConflicts := conflictsPair.1
  let k3 := conflictsPair.2
  let thirdOption :=
    if o0 ≠ "" ∧ o1 ≠ "" then
      if 7 / 10 < r k3 then
        some ("Have you considered a hybrid approach? Perhaps you could " ++ o0.toLower ++
          " for a trial period before fully committing to " ++ o1.toLower ++ ".")
      else none
    else none
  { recommendation := recommendation
    factors := factors
    sentiment := { positive := positive, negative := negative, neutral := neutral,
                   tone := some sentimentTone }
    detectedBiases := detectedBiases
    valueConflicts := valueConflicts
    optionPositions := optionPositions
    thirdOption := thirdOption }

/-- `handleSubmit`, success path run to completion: clears the error,
stores the freshly generated analysis, sets the submitted flag and moves
to the analysis step (the `finally` block ends with `loading` false). -/
def handleSubmit (s : DashState) (r : Nat → Rat) : DashState :=
  { s with error := none, loading := false,
           analysis := some (generateAnalysis s r),
           submitted := true, currentStep := .analysis }

/-- `handleQuestionChange`: safety-keyword scan, question update, and the
invalidate-on-edit rule when `submitted` is set. -/
def handleQuestionChange (s : DashState) (v : String) : DashState :=
  let lowerQuestion := v.toLower
  let s1 :=
    match HARMFUL_KEYWORDS.find? (fun word => strIncludes lowerQuestion word) with
    | some _ => { s with safetyMessage := SAFETY_MESSAGE, showSafetyDialog := true }
    | none => s
  let s2 := { s1 with question := v }
  if s2.submitted then
    { s2 with submitted := false, analysis := none, currentStep := .question }
  else s2

/-- `handleBalanceChange`. -/
def handleBalanceChange (s : DashState) (n : Nat) : DashState :=
  { s with balanceScore := n }

/-- `handleTimeHorizonChange`. -/
def handleTimeHorizonChange (s : DashState) (n : Nat) : DashState :=
  { s with timeHorizon := n }

/-- `handleInitialIntuitionChange`. -/
def handleInitialIntuitionChange (s : DashState) (v : String) : DashState :=
  { s with initialIntuition := v }

/-- `handleConfidenceChange`. -/
def handleConfidenceChange (s : DashState) (n : Nat) : DashState :=
  { s with confidenceScore := n }

/-- `handleOptionChange`. -/
def handleOptionChange (s : DashState) (index : Nat) (v : String) : DashState :=
  { s with options := s.options.set index v }

/-- `handleStakesChange`. -/
def handleStakesChange (s : DashState) (v : String) : DashState :=
  { s with stakes := v }

/-- `handleValueChange`. -/
def handleValueChange (s : DashState) (vs : List String) : DashState :=
  { s with selectedValues := vs }

/-- `handleContinue`: forward navigation with per-step validation; from
the context step a successful validation runs the submission. -/
def handleContinue (s : DashState) (r : Nat → Rat) : DashState :=
  match s.currentStep with
  | .question =>
      if s.question = "" then { s with error := some "Please enter a decision question" }
      else { { s with error := none } with currentStep := .intuition }
  | .intuition =>
      if s.initialIntuition = "" then { s with error := some "Please share your initial intuition" }
      else { { s with error := none } with currentStep := .context }
  | .context =>
      if s.options.getD 0 "" = "" ∧ s.options.getD 1 "" = "" then
        { s with error := some "Please enter at least one option you are considering" }
      else handleSubmit { s with error := none } r
  | _ => s

/-- `handleBack`. -/
def handleBack (s : DashState) : DashState :=
  match s.currentStep with
  | .intuition => { s with currentStep := .question }
  | .context => { s with currentStep := .intuition }
  | .analysis => { s with currentStep := .context }
  | _ => s

/-- The `Start New Decision` button handler (source lines 1166-1187). -/
def startNew (s : DashState) : DashState :=
  { s with submitted := false, analysis := none, currentStep := .question,
           question := "", balanceScore := 50, timeHorizon := 50,
           options := ["", ""], stakes := "", selectedValues := [],
           initialIntuition := "", confidenceScore := 70,
           showBiasInfo := none, showThirdOption := false,
           timeCapsuleScheduled := false, journalSaved := false }

/-- Discrete user events consumed by the controller. -/
inductive Event where
  | editQuestion (v : String)
  | editIntuition (v : String)
  | editOption (index : Nat) (v : String)
  | editStakes (v : String)
  | editValues (vs : List String)
  | editBalance (n : Nat)
  | editTimeHorizon (n : Nat)
  | editConfidence (n : Nat)
  | advance (r : Nat → Rat)
  | back
  | reset

/-- Dispatch of one event to its handler. -/
def applyEvent (s : DashState) : Event → DashState
  | .editQuestion v => handleQuestionChange s v
  | .editIntuition v => handleInitialIntuitionChange s v
  | .editOption i v => handleOptionChange s i v
  | .editStakes v => handleStakesChange s v
  | .editValues vs => handleValueChange s vs
  | .editBalance n => handleBalanceChange s n
  | .editTimeHorizon n => handleTimeHorizonChange s n
  | .editConfidence n => handleConfidenceChange s n
  | .advance r => handleContinue s r
  | .back => handleBack s
  | .reset => startNew s

/-- Left-to-right execution of a sequence of events. -/
def runEvents (s : DashState) : List Event → DashState
  | [] => s
  | e :: es => runEvents (applyEvent s e) es

/-! ### Concrete instances for witnesses and counterexamples -/

/-- A constant zero random stream, used to instantiate witnesses. -/
def rZero : Nat → Rat := fun _ => 0

/-- A minimal analysis value, used to instantiate witnesses. -/
def aEmpty : Analysis :=
  ⟨"", [], ⟨0, 0, 0, none⟩, [], [], [], none⟩

/-- A post-submission state, used to instantiate witnesses. -/
def sSubmitted : DashState :=
  { initState with submitted := true, analysis := some aEmpty,
                   currentStep := Step.analysis }

/-- A constant nine-tenths random stream, used for counterexamples. -/
def rNine : Nat → Rat := fun _ => 9 / 10

/-- A draft whose balance slider sits at 0, used for counterexamples. -/
def dZeroBalance : DashState := { initState with question := "Q", balanceScore := 0 }

/-! ### Helper lemmas -/

/-- `strStartsWith` agrees with list-level prefixing. -/
theorem strStartsWith_iff (l p : List Char) :
    strStartsWith l p = true ↔ ∃ t, l = p ++ t := by
  induction p generalizing l with
  | nil =>
      cases l <;> simp [strStartsWith]
  | cons b bs ih =>
      cases l with
      | nil => simp [strStartsWith]
      | cons a as =>
          simp only [strStartsWith, Bool.and_eq_true, beq_iff_eq, ih, List.cons_append,
            List.cons.injEq]
          constructor
          · rintro ⟨rfl, t, rfl⟩; exact ⟨t, rfl, rfl⟩
          · rintro ⟨t, rfl, rfl⟩; exact ⟨rfl, t, rfl⟩

/-- A string has another as prefix iff `strStartsWith` holds of the data. -/
theorem string_prefix_iff (s p : String) :
    (∃ rest, s = p ++ rest) ↔ strStartsWith s.data p.data = true := by
  rw [strStartsWith_iff]
  constructor
  · rintro ⟨rest, rfl⟩
    exact ⟨rest.data, String.data_append p rest⟩
  · rintro ⟨t, ht⟩
    refine ⟨⟨t⟩, String.ext ?_⟩
    rw [String.data_append]
    exact ht

/-- Appending on the right preserves a string prefix. -/
theorem prefix_append_right (x s u : String) :
    (∃ t, s = x ++ t) → ∃ t, s ++ u = x ++ t := by
  rintro ⟨t, rfl⟩
  exact ⟨t ++ u, String.append_assoc x t u⟩

/-- `effScore` is the identity away from zero. -/
theorem effScore_of_ne_zero {n : Nat} (h : n ≠ 0) : effScore n = n := by
  simp [effScore, h]

/-- No value-alignment factor is named like the financial factor. -/
theorem alignment_name_ne_financial (v : String) :
    v ++ " alignment" ≠ "Financial impact" := by
  intro h
  have hd : v.data ++ (" alignment" : String).data = ("Financial impact" : String).data :=
    (String.data_append v " alignment") ▸ congrArg String.data h
  have hsplit := hd.trans (List.take_append_drop 6 ("Financial impact" : String).data).symm
  have hlen : (" alignment" : String).data.length =
      (("Financial impact" : String).data.drop 6).length := by decide
  exact absurd (List.append_inj' hsplit hlen).2 (by decide)

/-- No stakes-impact factor is named like the financial factor. -/
theorem impact_name_ne_financial (st : String) :
    "Impact on " ++ st ≠ "Financial impact" := by
  intro h
  have hd : ("Impact on " : String).data ++ st.data = ("Financial impact" : String).data :=
    (String.data_append "Impact on " st) ▸ congrArg String.data h
  have hsplit := hd.trans (List.take_append_drop 10 ("Financial impact" : String).data).symm
  have hlen : ("Impact on " : String).data.length =
      (("Financial impact" : String).data.take 10).length := by decide
  exact absurd (List.append_inj hsplit hlen).1 (by decide)

/-- A string extended on the right keeps itself as a prefix. -/
theorem exists_prefix_one (x a : String) : ∃ t, x ++ a = x ++ t :=
  ⟨a, rfl⟩

/-- Two right extensions keep the base string as a prefix. -/
theorem exists_prefix_two (x a b : String) : ∃ t, (x ++ a) ++ b = x ++ t :=
  ⟨a ++ b, String.append_assoc x a b⟩

/-- In the logical branch the opening text starts with `logicalOpening`. -/
theorem recommendationOpening_logical (question : String) (balanceScore : Nat)
    (o0 o1 stakes : String) (selectedValues : List String) (r : Nat → Rat)
    (h : 50 < balanceScore) :
    ∃ t, (recommendationOpening question balanceScore o0 o1 stakes selectedValues r).1 =
      logicalOpening question balanceScore ++ t := by
  simp only [recommendationOpening, if_pos h]
  by_cases ho : o0 ≠ "" ∧ o1 ≠ ""
  · rw [if_pos ho]
    by_cases hv : 0 < selectedValues.length
    · rw [if_pos hv]
      exact exists_prefix_two _ _ _
    · rw [if_neg hv]
      exact exists_prefix_one _ _
  · rw [if_neg ho]
    by_cases hv : 0 < selectedValues.length
    · rw [if_pos hv]
      exact exists_prefix_two _ _ _
    · rw [if_neg hv]
      exact exists_prefix_one _ _

/-- In the emotional branch the opening text starts with
`emotionalOpening`. -/
theorem recommendationOpening_emotional (question : String) (balanceScore : Nat)
    (o0 o1 stakes : String) (selectedValues : List String) (r : Nat → Rat)
    (h : ¬ 50 < balanceScore) :
    ∃ t, (recommendationOpening question balanceScore o0 o1 stakes selectedValues r).1 =
      emotionalOpening question balanceScore ++ t := by
  simp only [recommendationOpening, if_neg h]
  by_cases ho : o0 ≠ "" ∧ o1 ≠ ""
  · rw [if_pos ho]
    by_cases hst : stakes ≠ ""
    · rw [if_pos hst]
      exact exists_prefix_two _ _ _
    · rw [if_neg hst]
      exact exists_prefix_one _ _
  · rw [if_neg ho]
    by_cases hst : stakes ≠ ""
    · rw [if_pos hst]
      exact exists_prefix_two _ _ _
    · rw [if_neg hst]
      exact exists_prefix_one _ _

/-- The full narrative keeps any prefix of the branch opening. -/
theorem mkRecommendation_prefix (question : String) (balanceScore timeHorizon : Nat)
    (o0 o1 stakes initialIntuition : String) (selectedValues : List String)
    (r : Nat → Rat) (x : String)
    (hx : ∃ t, (recommendationOpening question balanceScore o0 o1 stakes
      selectedValues r).1 = x ++ t) :
    ∃ rest, (mkRecommendation question balanceScore timeHorizon o0 o1 stakes
      initialIntuition selectedValues r).1 = x ++ rest := by
  simp only [mkRecommendation]
  by_cases hth : 50 < timeHorizon
  · rw [if_pos hth]
    exact prefix_append_right _ _ _ (prefix_append_right _ _ _ hx)
  · rw [if_neg hth]
    exact prefix_append_right _ _ _ (prefix_append_right _ _ _ hx)

/-- A first-option position is a clamped jitter of at most ±10 around
the base point. -/
theorem generatePosition_first (bX bY rx ry : Rat) (hx : 0 ≤ rx ∧ rx < 1)
    (hy : 0 ≤ ry ∧ ry < 1) :
    ∃ jx jy : Rat, -10 ≤ jx ∧ jx ≤ 10 ∧ -10 ≤ jy ∧ jy ≤ 10 ∧
      generatePosition bX bY false rx ry =
        { x := max 15 (min 85 (bX + jx)), y := max 15 (min 85 (bY + jy)) } := by
  refine ⟨rx * 20 - 20 / 2, ry * 20 - 20 / 2, by linarith [hx.1], by linarith [hx.2],
    by linarith [hy.1], by linarith [hy.2], ?_⟩
  simp [generatePosition]

/-- A second-option position lands in the quadrant ranges opposite the
base point. -/
theorem generatePosition_second (bX bY rx ry : Rat) :
    ((50 < bX → 10 ≤ (generatePosition bX bY true rx ry).x ∧
        (generatePosition bX bY true rx ry).x ≤ 45) ∧
     (¬ 50 < bX → 55 ≤ (generatePosition bX bY true rx ry).x ∧
        (generatePosition bX bY true rx ry).x ≤ 90)) ∧
    ((50 < bY → 10 ≤ (generatePosition bX bY true rx ry).y ∧
        (generatePosition bX bY true rx ry).y ≤ 45) ∧
     (¬ 50 < bY → 55 ≤ (generatePosition bX bY true rx ry).y ∧
        (generatePosition bX bY true rx ry).y ≤ 90)) := by
  simp only [generatePosition]
  constructor
  · constructor
    · intro h
      rw [if_pos h]
      exact ⟨le_max_left 10 _, max_le (by norm_num) (min_le_left 45 _)⟩
    · intro h
      rw [if_neg h]
      exact ⟨le_max_left 55 _, max_le (by norm_num) (min_le_left 90 _)⟩
  · constructor
    · intro h
      rw [if_pos h]
      exact ⟨le_max_left 10 _, max_le (by norm_num) (min_le_left 45 _)⟩
    · intro h
      rw [if_neg h]
      exact ⟨le_max_left 55 _, max_le (by norm_num) (min_le_left 90 _)⟩

/-- Full characterisation of the option-position record produced by
`mkPositions`: its keys are exactly the non-empty options (collapsed when
equal), the first option sits at a clamped ±10 jitter around the base
point, and the second option sits in the quadrant ranges opposite the
first option's resolved position (base `(50, 50)` when slot 0 is empty). -/
theorem mkPositions_spec (bs th : Nat) (o0 o1 : String) (r : Nat → Rat) (k : Nat)
    (hr : ∀ n, 0 ≤ r n ∧ r n < 1) :
    (∀ key, key ∈ (mkPositions bs th o0 o1 r k).1.map Prod.fst ↔
        (key ≠ "" ∧ (key = o0 ∨ key = o1))) ∧
    ((mkPositions bs th o0 o1 r k).1.map Prod.fst).Nodup ∧
    ((o0 ≠ "" ∨ o1 ≠ "") →
      ∃ p0 : OptionPosition,
        (o0 ≠ "" → ∃ jx jy : Rat, -10 ≤ jx ∧ jx ≤ 10 ∧ -10 ≤ jy ∧ jy ≤ 10 ∧
          p0 = { x := max 15 (min 85 ((bs : Rat) + jx)),
                 y := max 15 (min 85 ((th : Rat) + jy)) }) ∧
        (o0 = "" → p0 = { x := 50, y := 50 }) ∧
        (o0 ≠ "" → (o1 = "" ∨ o1 ≠ o0) →
          recordGet (mkPositions bs th o0 o1 r k).1 o0 = p0) ∧
        (o1 ≠ "" →
          ((50 < p0.x → 10 ≤ (recordGet (mkPositions bs th o0 o1 r k).1 o1).x ∧
              (recordGet (mkPositions bs th o0 o1 r k).1 o1).x ≤ 45) ∧
           (¬ 50 < p0.x → 55 ≤ (recordGet (mkPositions bs th o0 o1 r k).1 o1).x ∧
              (recordGet (mkPositions bs th o0 o1 r k).1 o1).x ≤ 90)) ∧
          ((50 < p0.y → 10 ≤ (recordGet (mkPositions bs th o0 o1 r k).1 o1).y ∧
              (recordGet (mkPositions bs th o0 o1 r k).1 o1).y ≤ 45) ∧
           (¬ 50 < p0.y → 55 ≤ (recordGet (mkPositions bs th o0 o1 r k).1 o1).y ∧
              (recordGet (mkPositions bs th o0 o1 r k).1 o1).y ≤ 90)))) := by
  by_cases h0 : o0 = ""
  · subst h0
    by_cases h1 : o1 = ""
    · subst h1
      have hm : (mkPositions bs th "" "" r k).1 = [] := by
        simp [mkPositions]
      rw [hm]
      refine ⟨?_, by simp, ?_⟩
      · intro key
        simp
      · rintro (habs | habs) <;> exact absurd rfl habs
    · have hm : (mkPositions bs th "" o1 r k).1 =
          [(o1, generatePosition 50 50 true (r k) (r (k + 1)))] := by
        simp [mkPositions, h1, recordInsert]
      have hget : recordGet [(o1, generatePosition 50 50 true (r k) (r (k + 1)))] o1 =
          generatePosition 50 50 true (r k) (r (k + 1)) := by
        simp [recordGet]
      rw [hm]
      refine ⟨?_, by simp, ?_⟩
      · intro key
        simp only [List.map_cons, List.map_nil, List.mem_singleton]
        constructor
        · rintro rfl
          exact ⟨h1, Or.inr rfl⟩
        · rintro ⟨hne, rfl | rfl⟩
          · exact absurd rfl hne
          · rfl
      · intro _
        have hb := generatePosition_second 50 50 (r k) (r (k + 1))
        refine ⟨{ x := 50, y := 50 }, fun h => absurd rfl h, fun _ => rfl,
          fun h _ => absurd rfl h, fun _ => ?_⟩
        rw [hget]
        refine ⟨⟨fun hc => absurd hc (by norm_num), fun _ => hb.1.2 (by norm_num)⟩,
          ⟨fun hc => absurd hc (by norm_num), fun _ => hb.2.2 (by norm_num)⟩⟩
  · by_cases h1 : o1 = ""
    · subst h1
      have hm : (mkPositions bs th o0 "" r k).1 =
          [(o0, generatePosition (bs : Rat) (th : Rat) false (r k) (r (k + 1)))] := by
        simp [mkPositions, h0]
      have hget : recordGet
          [(o0, generatePosition (bs : Rat) (th : Rat) false (r k) (r (k + 1)))] o0 =
          generatePosition (bs : Rat) (th : Rat) false (r k) (r (k + 1)) := by
        simp [recordGet]
      rw [hm]
      refine ⟨?_, by simp, ?_⟩
      · intro key
        simp only [List.map_cons, List.map_nil, List.mem_singleton]
        constructor
        · rintro rfl
          exact ⟨h0, Or.inl rfl⟩
        · rintro ⟨hne, rfl | rfl⟩
          · rfl
          · exact absurd rfl hne
      · intro _
        refine ⟨generatePosition (bs : Rat) (th : Rat) false (r k) (r (k + 1)),
          fun _ => generatePosition_first bs th (r k) (r (k + 1)) (hr k) (hr (k + 1)),
          fun h => absurd h h0, fun _ _ => hget, fun h => absurd rfl h⟩
    · by_cases heq : o1 = o0
      · subst heq
        have hget0 : recordGet
            [(o1, generatePosition (bs : Rat) (th : Rat) false (r k) (r (k + 1)))] o1 =
            generatePosition (bs : Rat) (th : Rat) false (r k) (r (k + 1)) := by
          simp [recordGet]
        have hm : (mkPositions bs th o1 o1 r k).1 =
            [(o1, generatePosition
                (generatePosition (bs : Rat) (th : Rat) false (r k) (r (k + 1))).x
                (generatePosition (bs : Rat) (th : Rat) false (r k) (r (k + 1))).y
                true (r (k + 2)) (r (k + 3)))] := by
          simp [mkPositions, h0, h1, recordInsert, hget0]
        have hget1 : recordGet
            [(o1, generatePosition
                (generatePosition (bs : Rat) (th : Rat) false (r k) (r (k + 1))).x
                (generatePosition (bs : Rat) (th : Rat) false (r k) (r (k + 1))).y
                true (r (k + 2)) (r (k + 3)))] o1 =
            generatePosition
                (generatePosition (bs : Rat) (th : Rat) false (r k) (r (k + 1))).x
                (generatePosition (bs : Rat) (th : Rat) false (r k) (r (k + 1))).y
                true (r (k + 2)) (r (k + 3)) := by
          simp [recordGet]
        rw [hm]
        refine ⟨?_, by simp, ?_⟩
        · intro key
          simp only [List.map_cons, List.map_nil, List.mem_singleton]
          constructor
          · rintro rfl
            exact ⟨h1, Or.inl rfl⟩
          · rintro ⟨hne, rfl | rfl⟩ <;> rfl
        · intro _
          have hb := generatePosition_second
            (generatePosition (bs : Rat) (th : Rat) false (r k) (r (k + 1))).x
            (generatePosition (bs : Rat) (th : Rat) false (r k) (r (k + 1))).y
            (r (k + 2)) (r (k + 3))
          refine ⟨generatePosition (bs : Rat) (th : Rat) false (r k) (r (k + 1)),
            fun _ => generatePosition_first bs th (r k) (r (k + 1)) (hr k) (hr (k + 1)),
            fun h => absurd h h0, ?_, fun _ => ?_⟩
          · rintro _ (h | h)
            · exact absurd h h0
            · exact absurd rfl h
          · rw [hget1]
            exact hb
      · have hne01 : (o0 == o1) = false := by
          exact beq_eq_false_iff_ne.2 fun hh => heq hh.symm
        have hget0 : recordGet
            [(o0, generatePosition (bs : Rat) (th : Rat) false (r k) (r (k + 1)))] o0 =
            generatePosition (bs : Rat) (th : Rat) false (r k) (r (k + 1)) := by
          simp [recordGet]
        have hm : (mkPositions bs th o0 o1 r k).1 =
            [(o0, generatePosition (bs : Rat) (th : Rat) false (r k) (r (k + 1))),
             (o1, generatePosition
                (generatePosition (bs : Rat) (th : Rat) false (r k) (r (k + 1))).x
                (generatePosition (bs : Rat) (th : Rat) false (r k) (r (k + 1))).y
                true (r (k + 2)) (r (k + 3)))] := by
          simp [mkPositions, h0, h1, recordInsert, hne01, hget0]
        rw [hm]
        refine ⟨?_, ?_, ?_⟩
        · intro key
          simp only [List.map_cons, List.map_nil, List.mem_cons, List.mem_singleton,
            List.not_mem_nil, or_false]
          constructor
          · rintro (rfl | rfl)
            · exact ⟨h0, Or.inl rfl⟩
            · exact ⟨h1, Or.inr rfl⟩
          · rintro ⟨hne, rfl | rfl⟩
            · exact Or.inl rfl
            · exact Or.inr rfl
        · simp [heq]
          exact fun hh => heq hh.symm
        · intro _
          have hb := generatePosition_second
            (generatePosition (bs : Rat) (th : Rat) false (r k) (r (k + 1))).x
            (generatePosition (bs : Rat) (th : Rat) false (r k) (r (k + 1))).y
            (r (k + 2)) (r (k + 3))
          refine ⟨generatePosition (bs : Rat) (th : Rat) false (r k) (r (k + 1)),
            fun _ => generatePosition_first bs th (r k) (r (k + 1)) (hr k) (hr (k + 1)),
            fun h => absurd h h0, fun _ _ => ?_, fun _ => ?_⟩
          · simp [recordGet]
          · have hgetrest : recordGet
                [(o0, generatePosition (bs : Rat) (th : Rat) false (r k) (r (k + 1))),
                 (o1, generatePosition
                    (generatePosition (bs : Rat) (th : Rat) false (r k) (r (k + 1))).x
                    (generatePosition (bs : Rat) (th : Rat) false (r k) (r (k + 1))).y
                    true (r (k + 2)) (r (k + 3)))] o1 =
                generatePosition
                    (generatePosition (bs : Rat) (th : Rat) false (r k) (r (k + 1))).x
                    (generatePosition (bs : Rat) (th : Rat) false (r k) (r (k + 1))).y
                    true (r (k + 2)) (r (k + 3)) := by
              simp [recordGet, List.find?, hne01]
            rw [hgetrest]
            exact hb

/-! ### Claim theorems -/

/-- C8: performing the reset (`startNew`) from any controller state
restores every documented default: empty question, both scores 50,
two empty options, empty stakes, no values, empty intuition, confidence
70, no analysis, submitted flag down, all four secondary disclosure flags
cleared, and the current step back at `question`. -/
theorem startNew_resets (s : DashState) :
    (startNew s).question = "" ∧ (startNew s).balanceScore = 50 ∧
    (startNew s).timeHorizon = 50 ∧ (startNew s).options = ["", ""] ∧
    (startNew s).stakes = "" ∧ (startNew s).selectedValues = [] ∧
    (startNew s).initialIntuition = "" ∧ (startNew s).confidenceScore = 70 ∧
    (startNew s).analysis = none ∧ (startNew s).submitted = false ∧
    (startNew s).showBiasInfo = none ∧ (startNew s).showThirdOption = false ∧
    (startNew s).timeCapsuleScheduled = false ∧ (startNew s).journalSaved = false ∧
    (startNew s).currentStep = Step.question :=
  ⟨rfl, rfl, rfl, rfl, rfl, rfl, rfl, rfl, rfl, rfl, rfl, rfl, rfl, rfl, rfl⟩

/-- C10: the analysis generator cannot distinguish a `balanceScore` of 0
from 50, nor a `timeHorizon` of 0 from 50: because the effective inputs
are `decision.balanceScore || 50` and `decision.timeHorizon || 50`, the
whole generated analysis is identical for the same random draws. -/
theorem generateAnalysis_zero_default (d : DashState) (r : Nat → Rat) :
    generateAnalysis { d with balanceScore := 0 } r =
      generateAnalysis { d with balanceScore := 50 } r ∧
    generateAnalysis { d with timeHorizon := 0 } r =
      generateAnalysis { d with timeHorizon := 50 } r :=
  ⟨rfl, rfl⟩

/-- C4: invalidation is asymmetric.  For every state with the submitted
flag set and a stored analysis, editing the question resets `submitted`,
clears the stored analysis and forces the step back to `question`, while
editing options, stakes, values, intuition or confidence leaves
`submitted`, the stored analysis and the current step unchanged. -/
theorem question_edit_invalidates (s : DashState) (v w : String) (i n : Nat)
    (vs : List String) (hsub : s.submitted = true) (hana : s.analysis ≠ none) :
    ((handleQuestionChange s v).submitted = false ∧
     (handleQuestionChange s v).analysis = none ∧
     (handleQuestionChange s v).currentStep = Step.question) ∧
    ((handleOptionChange s i w).submitted = s.submitted ∧
     (handleOptionChange s i w).analysis = s.analysis ∧
     (handleOptionChange s i w).currentStep = s.currentStep) ∧
    ((handleStakesChange s w).submitted = s.submitted ∧
     (handleStakesChange s w).analysis = s.analysis ∧
     (handleStakesChange s w).currentStep = s.currentStep) ∧
    ((handleValueChange s vs).submitted = s.submitted ∧
     (handleValueChange s vs).analysis = s.analysis ∧
     (handleValueChange s vs).currentStep = s.currentStep) ∧
    ((handleInitialIntuitionChange s w).submitted = s.submitted ∧
     (handleInitialIntuitionChange s w).analysis = s.analysis ∧
     (handleInitialIntuitionChange s w).currentStep = s.currentStep) ∧
    ((handleConfidenceChange s n).submitted = s.submitted ∧
     (handleConfidenceChange s n).analysis = s.analysis ∧
     (handleConfidenceChange s n).currentStep = s.currentStep) := by
  refine ⟨?_, ⟨rfl, rfl, rfl⟩, ⟨rfl, rfl, rfl⟩, ⟨rfl, rfl, rfl⟩, ⟨rfl, rfl, rfl⟩,
    ⟨rfl, rfl, rfl⟩⟩
  simp only [handleQuestionChange]
  cases hf : HARMFUL_KEYWORDS.find? (fun word => strIncludes v.toLower word) <;>
    simp [hf, hsub]

/-- C4 witness: invalidation and preservation at a concrete submitted
state. -/
theorem question_edit_invalidates_witness :
    (handleQuestionChange sSubmitted "x").submitted = false ∧
    (handleQuestionChange sSubmitted "x").analysis = none ∧
    (handleQuestionChange sSubmitted "x").currentStep = Step.question ∧
    (handleStakesChange sSubmitted "y").analysis = sSubmitted.analysis :=
  have h := question_edit_invalidates sSubmitted "x" "y" 0 0 [] rfl
    (by simp [sSubmitted, initState])
  ⟨h.1.1, h.1.2.1, h.1.2.2, h.2.2.1.2.1⟩

/-- C7 counterexample: with a validation error present, editing the
stakes field leaves the error in place, so the error is not null after
the edit as the claim requires. -/
theorem fieldEdit_error_counterexample :
    ({ initState with error := some "Please enter a decision question" } : DashState).error ≠
      none ∧
    (handleStakesChange { initState with error := some "Please enter a decision question" }
        "career").error ≠ none := by
  exact ⟨by simp, by simp [handleStakesChange]⟩

/-- C7 amended: no field edit touches the validation error.  Editing any
form field (question, intuition, options, stakes, values) leaves the
error unchanged; it is cleared only by a successful forward transition. -/
theorem fieldEdit_preserves_error (s : DashState) (v : String) (i : Nat)
    (vs : List String) :
    (handleQuestionChange s v).error = s.error ∧
    (handleInitialIntuitionChange s v).error = s.error ∧
    (handleOptionChange s i v).error = s.error ∧
    (handleStakesChange s v).error = s.error ∧
    (handleValueChange s vs).error = s.error := by
  refine ⟨?_, rfl, rfl, rfl, rfl⟩
  simp only [handleQuestionChange]
  split <;> split <;> rfl

/-- C3: forward-navigation validation.  From the `question` step an empty
question yields exactly the fixed question message and no step change,
while a non-empty question clears the error and moves to `intuition`;
from the `context` step two empty options yield exactly the fixed options
message and no step change, while at least one non-empty option clears
the error, stores a non-null analysis, sets the submitted flag and moves
to `analysis`. -/
theorem handleContinue_validation (s t : DashState) (r : Nat → Rat)
    (hs : s.currentStep = Step.question) (ht : t.currentStep = Step.context) :
    (s.question = "" →
      (handleContinue s r).error = some "Please enter a decision question" ∧
      (handleContinue s r).currentStep = Step.question) ∧
    (s.question ≠ "" →
      (handleContinue s r).error = none ∧
      (handleContinue s r).currentStep = Step.intuition) ∧
    (t.options.getD 0 "" = "" ∧ t.options.getD 1 "" = "" →
      (handleContinue t r).error = some "Please enter at least one option you are considering" ∧
      (handleContinue t r).currentStep = Step.context) ∧
    (¬(t.options.getD 0 "" = "" ∧ t.options.getD 1 "" = "") →
      (handleContinue t r).error = none ∧
      (handleContinue t r).analysis ≠ none ∧
      (handleContinue t r).submitted = true ∧
      (handleContinue t r).currentStep = Step.analysis) := by
  refine ⟨fun hq => ?_, fun hq => ?_, fun ho => ?_, fun ho => ?_⟩
  · simp only [handleContinue, hs]
    rw [if_pos hq]
    exact ⟨rfl, rfl⟩
  · simp only [handleContinue, hs]
    rw [if_neg hq]
    exact ⟨rfl, rfl⟩
  · simp only [handleContinue, ht]
    rw [if_pos ho]
    exact ⟨rfl, rfl⟩
  · simp only [handleContinue, ht]
    rw [if_neg ho]
    exact ⟨rfl, by simp [handleSubmit], rfl, rfl⟩

/-- C3 witness: the four validation behaviours at concrete states. -/
theorem handleContinue_validation_witness :
    ((handleContinue initState rZero).error = some "Please enter a decision question" ∧
     (handleContinue initState rZero).currentStep = Step.question) ∧
    ((handleContinue { initState with question := "Q" } rZero).error = none ∧
     (handleContinue { initState with question := "Q" } rZero).currentStep = Step.intuition) ∧
    ((handleContinue { initState with currentStep := Step.context } rZero).error =
        some "Please enter at least one option you are considering" ∧
     (handleContinue { initState with currentStep := Step.context } rZero).currentStep =
        Step.context) ∧
    ((handleContinue { initState with currentStep := Step.context, options := ["a", ""] }
        rZero).error = none ∧
     (handleContinue { initState with currentStep := Step.context, options := ["a", ""] }
        rZero).analysis ≠ none ∧
     (handleContinue { initState with currentStep := Step.context, options := ["a", ""] }
        rZero).submitted = true ∧
     (handleContinue { initState with currentStep := Step.context, options := ["a", ""] }
        rZero).currentStep = Step.analysis) := by
  refine ⟨?_, ?_, ?_, ?_⟩
  · exact (handleContinue_validation initState
      { initState with currentStep := Step.context } rZero rfl rfl).1 rfl
  · exact (handleContinue_validation { initState with question := "Q" }
      { initState with question := "Q", currentStep := Step.context } rZero rfl rfl).2.1
      (by decide)
  · exact (handleContinue_validation initState
      { initState with currentStep := Step.context } rZero rfl rfl).2.2.1 ⟨rfl, rfl⟩
  · exact (handleContinue_validation initState
      { initState with currentStep := Step.context, options := ["a", ""] } rZero rfl
      rfl).2.2.2 (by decide)

/-- Step changes performed by one event never reach `confidence`. -/
theorem applyEvent_not_confidence (s : DashState) (e : Event)
    (h : s.currentStep ≠ Step.confidence) :
    (applyEvent s e).currentStep ≠ Step.confidence := by
  cases e with
  | editQuestion v =>
      simp only [applyEvent, handleQuestionChange]
      split <;> split <;> simp_all
  | editIntuition v => exact h
  | editOption i v => exact h
  | editStakes v => exact h
  | editValues vs => exact h
  | editBalance n => exact h
  | editTimeHorizon n => exact h
  | editConfidence n => exact h
  | advance r =>
      simp only [applyEvent, handleContinue]
      split <;> (try split) <;> simp_all [handleSubmit]
  | back =>
      simp only [applyEvent, handleBack]
      split <;> simp_all
  | reset => simp [applyEvent, startNew]

/-- `runEvents` keeps the step away from `confidence`. -/
theorem runEvents_not_confidence (es : List Event) :
    ∀ s : DashState, s.currentStep ≠ Step.confidence →
      (runEvents s es).currentStep ≠ Step.confidence := by
  induction es with
  | nil => exact fun s h => h
  | cons e es ih => exact fun s h => ih _ (applyEvent_not_confidence s e h)

/-- The Status Quo Bias entry sits in `mkBiases` exactly when slot-0
matches the keyword test. -/
theorem mkBiases_statusQuo_mem (f e b : Nat) (o0 : String) :
    (∃ bd ∈ mkBiases f e b o0, bd.biasType = "Status Quo Bias") ↔
      (strIncludes o0.toLower "stay" = true ∨ strIncludes o0.toLower "current" = true) := by
  unfold mkBiases
  rw [← Bool.or_eq_true]
  constructor
  · rintro ⟨bd, hmem, hbt⟩
    rcases List.mem_append.1 hmem with hmem | hmem
    · rcases List.mem_append.1 hmem with hmem | hmem
      · by_cases h1 : 70 < f ∧ b < 40
        · rw [if_pos h1] at hmem
          simp only [List.mem_singleton] at hmem
          subst hmem
          exact absurd hbt (by decide)
        · rw [if_neg h1] at hmem
          simp at hmem
      · by_cases h2 : b < 30 ∧ 80 < e
        · rw [if_pos h2] at hmem
          simp only [List.mem_singleton] at hmem
          subst hmem
          exact absurd hbt (by decide)
        · rw [if_neg h2] at hmem
          simp at hmem
    · by_cases h3 : (strIncludes o0.toLower "stay" || strIncludes o0.toLower "current") = true
      · exact h3
      · rw [if_neg h3] at hmem
        simp at hmem
  · intro h3
    refine ⟨COGNITIVE_BIASES.getD 3 ⟨"", "", ""⟩, ?_, by decide⟩
    refine List.mem_append.2 (Or.inr ?_)
    rw [if_pos h3]
    exact List.mem_singleton.2 rfl

/-- The Loss Aversion entry sits in `mkBiases` exactly when the financial
score passes 70 and the balance score is below 40. -/
theorem mkBiases_lossAversion_mem (f e b : Nat) (o0 : String) :
    (∃ bd ∈ mkBiases f e b o0, bd.biasType = "Loss Aversion") ↔ (70 < f ∧ b < 40) := by
  unfold mkBiases
  constructor
  · rintro ⟨bd, hmem, hbt⟩
    rcases List.mem_append.1 hmem with hmem | hmem
    · rcases List.mem_append.1 hmem with hmem | hmem
      · by_cases h1 : 70 < f ∧ b < 40
        · exact h1
        · rw [if_neg h1] at hmem
          simp at hmem
      · by_cases h2 : b < 30 ∧ 80 < e
        · rw [if_pos h2] at hmem
          simp only [List.mem_singleton] at hmem
          subst hmem
          exact absurd hbt (by decide)
        · rw [if_neg h2] at hmem
          simp at hmem
    · by_cases h3 : (strIncludes o0.toLower "stay" || strIncludes o0.toLower "current") = true
      · rw [if_pos h3] at hmem
        simp only [List.mem_singleton] at hmem
        subst hmem
        exact absurd hbt (by decide)
      · rw [if_neg h3] at hmem
        simp at hmem
  · intro h1
    refine ⟨COGNITIVE_BIASES.getD 0 ⟨"", "", ""⟩, ?_, by decide⟩
    refine List.mem_append.2 (Or.inl (List.mem_append.2 (Or.inl ?_)))
    rw [if_pos h1]
    exact List.mem_singleton.2 rfl

/-- Shape of the generated factor list and bias list: the biases are
`mkBiases` of the drawn financial and emotional scores, and the factor
list is the value factors, then the three fixed factors carrying those
same scores, then the optional stakes factor. -/
theorem generateAnalysis_biases_factors (s : DashState) (r : Nat → Rat) :
    ∃ fin emo lng vf stk,
      (generateAnalysis s r).detectedBiases =
        mkBiases fin emo (effScore s.balanceScore) (s.options.getD 0 "") ∧
      (generateAnalysis s r).factors =
        vf ++ ([{ name := "Financial impact", score := fin, valueAlignment := none },
                { name := "Emotional well-being", score := emo, valueAlignment := none },
                { name := "Long-term consequences", score := lng, valueAlignment := none }] ++ stk) ∧
      (∀ fa ∈ vf, ∃ v, fa.name = v ++ " alignment") ∧
      (∀ fa ∈ stk, fa.name = "Impact on " ++ s.stakes) := by
  simp only [generateAnalysis]
  refine ⟨_, _, _, _, _, rfl, List.append_assoc _ _ _, ?_, ?_⟩
  · intro fa hfa
    obtain ⟨p, hp, rfl⟩ := List.mem_map.1 hfa
    exact ⟨p.2, rfl⟩
  · intro fa hfa
    by_cases hst : s.stakes ≠ ""
    · rw [if_pos hst] at hfa
      rw [List.mem_singleton.1 hfa]
    · rw [if_neg hst] at hfa
      simp at hfa

/-- C5: for every submission the Status Quo Bias appears in
`detectedBiases` iff the first option, lower-cased, contains "stay" or
"current"; the right-hand side never mentions the second option, so slot
1 can never trigger it. -/
theorem statusQuo_iff (d : DashState) (r : Nat → Rat) :
    (∃ bd ∈ (generateAnalysis d r).detectedBiases, bd.biasType = "Status Quo Bias") ↔
      (strIncludes (d.options.getD 0 "").toLower "stay" = true ∨
       strIncludes (d.options.getD 0 "").toLower "current" = true) := by
  obtain ⟨fin, emo, lng, vf, stk, hb, -, -, -⟩ := generateAnalysis_biases_factors d r
  rw [hb]
  exact mkBiases_statusQuo_mem fin emo (effScore d.balanceScore) (d.options.getD 0 "")

/-- C2 amended: for every submission the Loss Aversion bias appears in
`detectedBiases` iff the financial-impact factor scores above 70 and the
effective balance score (`balanceScore || 50`, so 50 when the field is 0)
is below 40. -/
theorem lossAversion_iff (d : DashState) (r : Nat → Rat) :
    (∃ bd ∈ (generateAnalysis d r).detectedBiases, bd.biasType = "Loss Aversion") ↔
      ((∃ fa ∈ (generateAnalysis d r).factors,
          fa.name = "Financial impact" ∧ 70 < fa.score) ∧
        effScore d.balanceScore < 40) := by
  obtain ⟨fin, emo, lng, vf, stk, hb, hf, hvf, hstk⟩ := generateAnalysis_biases_factors d r
  rw [hb, hf, mkBiases_lossAversion_mem]
  constructor
  · rintro ⟨h70, h40⟩
    refine ⟨⟨{ name := "Financial impact", score := fin, valueAlignment := none }, ?_, rfl, h70⟩, h40⟩
    exact List.mem_append.2 (Or.inr (List.mem_append.2 (Or.inl (by simp))))
  · rintro ⟨⟨fa, hmem, hname, hscore⟩, h40⟩
    refine ⟨?_, h40⟩
    rcases List.mem_append.1 hmem with h | h
    · obtain ⟨v, hv⟩ := hvf fa h
      exact absurd (hv.symm.trans hname) (alignment_name_ne_financial v)
    · rcases List.mem_append.1 h with h | h
      · simp only [List.mem_cons, List.not_mem_nil, or_false] at h
        rcases h with h | h | h
        · rw [h] at hscore
          exact hscore
        · rw [h] at hname
          simp at hname
        · rw [h] at hname
          simp at hname
      · exact absurd ((hstk fa h).symm.trans hname) (impact_name_ne_financial d.stakes)

/-- C2 counterexample: with `balanceScore = 0` and a draw forcing the
financial-impact score to 90, the claim demands Loss Aversion (score > 70
and field `balanceScore = 0 < 40`), yet the generated bias list does not
contain it, because the generator replaces the 0 by the default 50. -/
theorem lossAversion_zero_counterexample :
    dZeroBalance.balanceScore < 40 ∧
    (∃ fa ∈ (generateAnalysis dZeroBalance rNine).factors,
        fa.name = "Financial impact" ∧ 70 < fa.score) ∧
    ¬(∃ bd ∈ (generateAnalysis dZeroBalance rNine).detectedBiases,
        bd.biasType = "Loss Aversion") := by
  have hfac : (generateAnalysis dZeroBalance rNine).factors =
      [{ name := "Financial impact", score := 90, valueAlignment := none },
       { name := "Emotional well-being", score := 90, valueAlignment := none },
       { name := "Long-term consequences", score := 90, valueAlignment := none }] := by
    simp only [generateAnalysis, mkRecommendation, dZeroBalance, initState, rNine, effScore]
    norm_num
    decide
  refine ⟨by decide, ?_, ?_⟩
  · rw [hfac]
    exact ⟨{ name := "Financial impact", score := 90, valueAlignment := none },
      by simp, rfl, by norm_num⟩
  · obtain ⟨fin, emo, lng, vf, stk, hb, -, -, -⟩ :=
      generateAnalysis_biases_factors dZeroBalance rNine
    rw [hb]
    intro hcon
    have h40 := ((mkBiases_lossAversion_mem fin emo _ _).1 hcon).2
    simp [dZeroBalance, initState, effScore] at h40

/-- C1 amended: for every submission, when the balance slider field is
above 50 the recommendation opens with the logical framing reporting the
field verbatim; when the field is at most 50 the recommendation opens
with the emotional framing, but the reported percentage is
`100 - (balanceScore || 50)` — that is, `100 - balanceScore` for fields
in `[1, 50]` and 50 for a field of 0 (the generator defaults a 0 field to
50). -/
theorem recommendation_framing (d : DashState) (r : Nat → Rat) :
    (50 < d.balanceScore →
      ∃ rest, (generateAnalysis d r).recommendation =
        logicalOpening d.question d.balanceScore ++ rest) ∧
    (d.balanceScore ≤ 50 →
      ∃ rest, (generateAnalysis d r).recommendation =
        emotionalOpening d.question (effScore d.balanceScore) ++ rest) := by
  have hrec : (generateAnalysis d r).recommendation =
      (mkRecommendation d.question (effScore d.balanceScore) (effScore d.timeHorizon)
        (d.options.getD 0 "") (d.options.getD 1 "") d.stakes d.initialIntuition
        d.selectedValues r).1 := rfl
  constructor
  · intro h
    rw [hrec, effScore_of_ne_zero (by omega : d.balanceScore ≠ 0)]
    exact mkRecommendation_prefix _ _ _ _ _ _ _ _ _ _
      (recommendationOpening_logical _ _ _ _ _ _ _ h)
  · intro h
    have hle : ¬ 50 < effScore d.balanceScore := by
      by_cases h0 : d.balanceScore = 0
      · rw [h0]
        decide
      · rw [effScore_of_ne_zero h0]
        omega
    rw [hrec]
    exact mkRecommendation_prefix _ _ _ _ _ _ _ _ _ _
      (recommendationOpening_emotional _ _ _ _ _ _ _ hle)

/-- C1 witness: the two framings at concrete submissions. -/
theorem recommendation_framing_witness :
    (∃ rest, (generateAnalysis { initState with question := "Q", balanceScore := 80 }
        rZero).recommendation = logicalOpening "Q" 80 ++ rest) ∧
    (∃ rest, (generateAnalysis { initState with question := "Q", balanceScore := 30 }
        rZero).recommendation = emotionalOpening "Q" 30 ++ rest) :=
  ⟨(recommendation_framing { initState with question := "Q", balanceScore := 80 } rZero).1
      (by decide),
   (recommendation_framing { initState with question := "Q", balanceScore := 30 } rZero).2
      (by decide)⟩

/-- C1 counterexample: at `balanceScore = 0` the claim demands the
emotional framing report `100 - 0 = 100` percent, but the generated
recommendation does not open with that text (it reports 50 percent,
because the 0 field is defaulted to 50). -/
theorem recommendation_zero_counterexample :
    ¬ ∃ rest, (generateAnalysis dZeroBalance rZero).recommendation =
      emotionalOpening "Q" 0 ++ rest := by
  rw [string_prefix_iff]
  decide

/-- C6: for every submission and random stream with draws in `[0,1)`,
`optionPositions` has exactly one entry per non-empty option (duplicate
texts collapse to one key); option 0's resolved position `p0` is a jitter
of at most ±10 per axis around the effective `(balanceScore, timeHorizon)`
clamped to `[15,85]` on both axes (and is the stored entry for option 0
whenever option 1 does not overwrite the same key); and option 1's stored
entry lies in the quadrant opposite `p0` (taken as `(50,50)` when option
0 is absent): x within `[10,45]` when `p0.x > 50`, within `[55,90]`
otherwise, and symmetrically for y. -/
theorem optionPositions_spec (d : DashState) (r : Nat → Rat)
    (hr : ∀ n, 0 ≤ r n ∧ r n < 1) :
    (∀ key, key ∈ (generateAnalysis d r).optionPositions.map Prod.fst ↔
        (key ≠ "" ∧ (key = d.options.getD 0 "" ∨ key = d.options.getD 1 ""))) ∧
    ((generateAnalysis d r).optionPositions.map Prod.fst).Nodup ∧
    ((d.options.getD 0 "" ≠ "" ∨ d.options.getD 1 "" ≠ "") →
      ∃ p0 : OptionPosition,
        (d.options.getD 0 "" ≠ "" →
          ∃ jx jy : Rat, -10 ≤ jx ∧ jx ≤ 10 ∧ -10 ≤ jy ∧ jy ≤ 10 ∧
            p0 = { x := max 15 (min 85 ((effScore d.balanceScore : Rat) + jx)),
                   y := max 15 (min 85 ((effScore d.timeHorizon : Rat) + jy)) }) ∧
        (d.options.getD 0 "" = "" → p0 = { x := 50, y := 50 }) ∧
        (d.options.getD 0 "" ≠ "" →
          (d.options.getD 1 "" = "" ∨ d.options.getD 1 "" ≠ d.options.getD 0 "") →
          recordGet (generateAnalysis d r).optionPositions (d.options.getD 0 "") = p0) ∧
        (d.options.getD 1 "" ≠ "" →
          ((50 < p0.x →
              10 ≤ (recordGet (generateAnalysis d r).optionPositions (d.options.getD 1 "")).x ∧
              (recordGet (generateAnalysis d r).optionPositions (d.options.getD 1 "")).x ≤ 45) ∧
           (¬ 50 < p0.x →
              55 ≤ (recordGet (generateAnalysis d r).optionPositions (d.options.getD 1 "")).x ∧
              (recordGet (generateAnalysis d r).optionPositions (d.options.getD 1 "")).x ≤ 90)) ∧
          ((50 < p0.y →
              10 ≤ (recordGet (generateAnalysis d r).optionPositions (d.options.getD 1 "")).y ∧
              (recordGet (generateAnalysis d r).optionPositions (d.options.getD 1 "")).y ≤ 45) ∧
           (¬ 50 < p0.y →
              55 ≤ (recordGet (generateAnalysis d r).optionPositions (d.options.getD 1 "")).y ∧
              (recordGet (generateAnalysis d r).optionPositions (d.options.getD 1 "")).y ≤ 90)))) := by
  obtain ⟨k, hpos⟩ : ∃ k, (generateAnalysis d r).optionPositions =
      (mkPositions (effScore d.balanceScore) (effScore d.timeHorizon)
        (d.options.getD 0 "") (d.options.getD 1 "") r k).1 := ⟨_, rfl⟩
  rw [hpos]
  exact mkPositions_spec (effScore d.balanceScore) (effScore d.timeHorizon)
    (d.options.getD 0 "") (d.options.getD 1 "") r k hr

/-- The constant one-half stream is a valid random stream. -/
theorem rHalf_valid : ∀ n : Nat, 0 ≤ (fun _ : Nat => (1 : Rat) / 2) n ∧
    (fun _ : Nat => (1 : Rat) / 2) n < 1 :=
  fun _ => ⟨by norm_num, by norm_num⟩

/-- C6 witness: the key characterisation at a concrete two-option
submission. -/
theorem optionPositions_spec_witness :
    (∀ n : Nat, 0 ≤ (fun _ : Nat => (1 : Rat) / 2) n ∧
      (fun _ : Nat => (1 : Rat) / 2) n < 1) ∧
    (∀ key, key ∈ (generateAnalysis
        { initState with question := "Q", options := ["a", "b"] }
        (fun _ => (1 : Rat) / 2)).optionPositions.map Prod.fst ↔
      (key ≠ "" ∧ (key = "a" ∨ key = "b"))) ∧
    ((generateAnalysis { initState with question := "Q", options := ["a", "b"] }
        (fun _ => (1 : Rat) / 2)).optionPositions.map Prod.fst).Nodup :=
  ⟨rHalf_valid,
   (optionPositions_spec { initState with question := "Q", options := ["a", "b"] }
      (fun _ => (1 : Rat) / 2) rHalf_valid).1,
   (optionPositions_spec { initState with question := "Q", options := ["a", "b"] }
      (fun _ => (1 : Rat) / 2) rHalf_valid).2.1⟩

/-- C9: the reserved step value `confidence` is unreachable — starting
from the initial state, no sequence of advance, back, field-edit or reset
events ever makes the current step equal `confidence`. -/
theorem confidence_unreachable (es : List Event) :
    (runEvents initState es).currentStep ≠ Step.confidence :=
  runEvents_not_confidence es initState (by decide)

end AnchorDecisions
